import Mathlib

/-!
# Verification of the LiveTalking session-orchestration layer

Shallow embedding of `src/livetalking/app_fixed.py`: the session registry
(the global dict `nerfreals : Dict[int, BaseReal]`), the `offer` admission
and construction path, the per-connection cleanup closure, the command
handlers (`human`, `interrupt_talk`, `humanaudio`, `set_audiotype`), the
`health` endpoint, the codec-preference computation and the session-id
generator `randN`.

Python dicts are embedded as insertion-ordered association lists over
`Nat` keys; the registry's values are `Option Renderer` because the code
stores `None` as a placeholder before construction completes.  External
renderer constructors (`LipReal`, `MuseReal`, `LightReal` — modules not in
this repository) are parameters that may fail, mirroring that the Python
constructors may raise.  Exceptions are embedded as `Except String`.
-/

namespace LiveTalking

/-- The three renderer implementations selected by `opt.model`
(`app_fixed.py` lines 51-59). -/
inductive ModelKind where
  | wav2lip
  | musetalk
  | ultralight
deriving DecidableEq, Repr

/-- A built renderer handle (`BaseReal` instance).  Only its identity
matters to the orchestration layer: the session it was built for and the
model variant. -/
structure Renderer where
  sessionid : Nat
  kind : ModelKind
deriving DecidableEq, Repr

/-- The session registry: the global `nerfreals` dict, sessionid ↦
renderer-or-`None` (`None` is the pre-construction placeholder set at
line 94).  Embedded as an insertion-ordered association list. -/
abbrev Registry := List (Nat × Option Renderer)

namespace Registry

/-- Dict read `nerfreals[id]`: value of the first (unique, for
dict-reachable states) entry with the given key; `none` if absent. -/
def lookup : Registry → Nat → Option (Option Renderer)
  | [], _ => none
  | p :: tl, id => if p.1 = id then some p.2 else lookup tl id

/-- Python `id in nerfreals`. -/
def mem (reg : Registry) (id : Nat) : Bool :=
  (reg.lookup id).isSome

/-- Dict assignment `nerfreals[id] = v`: overwrites in place when the key
is present, appends otherwise (Python dicts keep insertion order and keep
the original position on overwrite). -/
def insert : Registry → Nat → Option Renderer → Registry
  | [], id, v => [(id, v)]
  | p :: tl, id, v => if p.1 = id then (id, v) :: tl else p :: insert tl id v

/-- Python `del nerfreals[id]`. -/
def erase : Registry → Nat → Registry
  | [], _ => []
  | p :: tl, id => if p.1 = id then erase tl id else p :: erase tl id

/-- `len(nerfreals)`. -/
def count (reg : Registry) : Nat :=
  reg.length

@[simp] theorem lookup_nil (id : Nat) : lookup [] id = none := rfl

@[simp] theorem lookup_cons (p : Nat × Option Renderer) (reg : Registry) (id : Nat) :
    lookup (p :: reg) id = if p.1 = id then some p.2 else lookup reg id := rfl

@[simp] theorem mem_nil (id : Nat) : mem [] id = false := rfl

theorem mem_cons (p : Nat × Option Renderer) (reg : Registry) (id : Nat) :
    mem (p :: reg) id = if p.1 = id then true else mem reg id := by
  by_cases h : p.1 = id <;> simp [mem, h]

@[simp] theorem lookup_insert_self (reg : Registry) (id : Nat) (v : Option Renderer) :
    (reg.insert id v).lookup id = some v := by
  induction reg with
  | nil => simp [insert]
  | cons p tl ih =>
      by_cases h : p.1 = id
      · simp [insert, h]
      · simp [insert, h, ih]

theorem lookup_insert_other (reg : Registry) (id id' : Nat) (v : Option Renderer)
    (hne : id ≠ id') :
    (reg.insert id v).lookup id' = reg.lookup id' := by
  induction reg with
  | nil => simp [insert, hne]
  | cons p tl ih =>
      by_cases h : p.1 = id
      · subst h
        simp [insert, hne]
      · by_cases h' : p.1 = id'
        · simp [insert, h, h', Ne.symm hne]
        · simp [insert, h, h', ih]

theorem count_insert (reg : Registry) (id : Nat) (v : Option Renderer) :
    (reg.insert id v).count = if reg.mem id then reg.count else reg.count + 1 := by
  induction reg with
  | nil => simp [insert, count]
  | cons p tl ih =>
      by_cases h : p.1 = id
      · simp [insert, h, mem_cons, count]
      · by_cases hm : mem tl id
        · simp [insert, h, mem_cons, count, hm] at ih ⊢
          omega
        · simp [insert, h, mem_cons, count, hm] at ih ⊢
          omega

theorem count_insert_of_mem (reg : Registry) (id : Nat) (v : Option Renderer)
    (hm : reg.mem id = true) :
    (reg.insert id v).count = reg.count := by
  simp [count_insert, hm]

theorem count_insert_of_not_mem (reg : Registry) (id : Nat) (v : Option Renderer)
    (hm : reg.mem id = false) :
    (reg.insert id v).count = reg.count + 1 := by
  simp [count_insert, hm]

@[simp] theorem lookup_erase_self (reg : Registry) (id : Nat) :
    (reg.erase id).lookup id = none := by
  induction reg with
  | nil => rfl
  | cons p tl ih =>
      by_cases h : p.1 = id
      · simpa [erase, h] using ih
      · simpa [erase, h] using ih

@[simp] theorem mem_erase_self (reg : Registry) (id : Nat) :
    (reg.erase id).mem id = false := by
  simp [mem]

end Registry

/-- `randN(N)` (`app_fixed.py` lines 36-40): `min_val = 10^(N-1)`,
`max_val = 10^N`, returns `random.randint(min_val, max_val - 1)`.  The
random source is a parameter `randint`; faithfulness of Python's
`random.randint(a, b)` (inclusive range `[a, b]`) is a hypothesis of the
theorems. -/
def randN (randint : Nat → Nat → Nat) (N : Nat) : Nat :=
  randint (10 ^ (N - 1)) (10 ^ N - 1)

/-- A structured JSON error/ack body `{"code": ..., "msg": ...}`. -/
structure Response where
  code : Int
  msg : String
deriving DecidableEq, Repr

/-- `build_nerfreal(sessionid)` (`app_fixed.py` lines 42-68): dispatches on
the `opt.model` string; the three recognized kinds call an external
constructor (`LipReal` / `MuseReal` / `LightReal`, modules not in this
repository, embedded as the parameter `alloc`, which may fail the way the
Python constructors may raise); any other string raises
`ValueError(f"Unknown model: {opt.model}")`.  The `except` block at lines
65-68 logs and re-raises, so failures propagate unchanged to the caller. -/
def build_nerfreal (modelStr : String)
    (alloc : ModelKind → Nat → Except String Renderer)
    (sessionid : Nat) : Except String Renderer :=
  if modelStr = "wav2lip" then alloc ModelKind.wav2lip sessionid
  else if modelStr = "musetalk" then alloc ModelKind.musetalk sessionid
  else if modelStr = "ultralight" then alloc ModelKind.ultralight sessionid
  else Except.error ("Unknown model: " ++ modelStr)

/-- Phase 1 of `offer` (`app_fixed.py` lines 86-95), the admission check
plus placeholder registration.  There is no `await` between the capacity
check (line 86) and the placeholder insertion (line 94), so on the
single-threaded asyncio control plane the two execute as one atomic step;
the embedding makes them a single pure function.  `opt.max_session` always
exists (argparse defines it with default 1), so the `hasattr` guard at
line 86 is `True`.  Returns `(some response, reg)` on rejection (the
registry is returned untouched) and `(none, reg')` on admission with the
placeholder `draw ↦ None` inserted. -/
def offer_admission (maxSession : Nat) (draw : Nat) (reg : Registry) :
    Option Response × Registry :=
  if reg.count ≥ maxSession then
    (some ⟨-1, "reach max session"⟩, reg)
  else
    (none, reg.insert draw none)

/-- Outcome of the remainder of one `offer` request. -/
inductive OfferOutcome where
  | response (resp : Response)
  | success (sessionid : Nat) (r : Renderer)
deriving DecidableEq, Repr

/-- Phase 2 of `offer` (`app_fixed.py` lines 97-100 and the handler-wide
`except` at lines 202-207): the result of the off-thread
`build_nerfreal` call arrives back on the control plane.
* On success, line 100 executes `nerfreals[sessionid] = nerfreal`
  unconditionally — there is no registry-membership check between the
  `await` at line 99 and the assignment.
* On an exception from construction, control jumps to the `except` block,
  which returns `{"code": -1, "msg": str(e)}`; no statement there touches
  `nerfreals`, so the registry is left exactly as it was. -/
def offer_complete (reg : Registry) (sessionid : Nat)
    (built : Except String Renderer) : OfferOutcome × Registry :=
  match built with
  | Except.error e => (OfferOutcome.response ⟨-1, e⟩, reg)
  | Except.ok r => (OfferOutcome.success sessionid r, reg.insert sessionid (some r))

/-- One whole `offer` request with no event interleaved between admission
and construction completion: phase 1 then phase 2. -/
def offer_run (maxSession : Nat) (draw : Nat) (modelStr : String)
    (alloc : ModelKind → Nat → Except String Renderer)
    (reg : Registry) : OfferOutcome × Registry :=
  match offer_admission maxSession draw reg with
  | (some resp, reg') => (OfferOutcome.response resp, reg')
  | (none, reg') => offer_complete reg' draw (build_nerfreal modelStr alloc draw)

/-- The registry part of the terminal branches of
`on_connectionstatechange` (`app_fixed.py` lines 116-126): on `"failed"`
or `"closed"` the closure runs `if sessionid in nerfreals: del
nerfreals[sessionid]`.  The deletion is gated on membership, so it is a
total function: on an already-removed session it returns the registry
unchanged and raises nothing. -/
def cleanup (reg : Registry) (sessionid : Nat) : Registry :=
  if reg.mem sessionid then reg.erase sessionid else reg

/-- A session id is attached when it is present in the registry with a
non-`None` renderer — the guard `sessionid in nerfreals and
nerfreals[sessionid] is not None` used by every command handler. -/
def rendererAttached (reg : Registry) (sessionid : Nat) : Bool :=
  match reg.lookup sessionid with
  | some (some _) => true
  | _ => false

/-- Renderer-method invocations a command handler performs, recorded as
events (`flush_talk`, `put_msg_txt`, the executor-offloaded
`llm_response`, `put_audio_file`, `set_curr_state`). -/
inductive Effect where
  | flushTalk (sessionid : Nat)
  | putMsgTxt (sessionid : Nat) (text : String)
  | llmOffload (text : String)
  | putAudioFile (sessionid : Nat) (path : String)
  | setCurrState (sessionid : Nat) (audiotype : Int)
deriving DecidableEq, Repr

/-- `human` (`app_fixed.py` lines 209-246): if the session is absent or
its renderer is `None`, return `{"code": -1, "msg": "session not found"}`
with no renderer call; otherwise optionally `flush_talk` (when
`interrupt` is set), then dispatch on `type` (`echo` → `put_msg_txt`,
`chat` → offload `llm_response` to the executor), and return
`{"code": 0, "msg": "ok"}`.  The handler never writes to `nerfreals`. -/
def human (reg : Registry) (sessionid : Nat) (reqType : Option String)
    (text : String) (interrupt : Bool) : Response × List Effect :=
  if ¬ rendererAttached reg sessionid then
    (⟨-1, "session not found"⟩, [])
  else
    let e1 := if interrupt then [Effect.flushTalk sessionid] else []
    let e2 :=
      if reqType = some "echo" then [Effect.putMsgTxt sessionid text]
      else if reqType = some "chat" then [Effect.llmOffload text]
      else []
    (⟨0, "ok"⟩, e1 ++ e2)

/-- `interrupt_talk` (`app_fixed.py` lines 248-268): `flush_talk` only
when the session exists with an attached renderer; in every case —
including an absent or unattached session — it answers
`{"code": 0, "msg": "ok"}`. -/
def interrupt_talk (reg : Registry) (sessionid : Nat) : Response × List Effect :=
  if rendererAttached reg sessionid then
    (⟨0, "ok"⟩, [Effect.flushTalk sessionid])
  else
    (⟨0, "ok"⟩, [])

/-- `set_audiotype` (`app_fixed.py` lines 307-328): `set_curr_state` only
when the session exists with an attached renderer; in every case it
answers `{"code": 0, "msg": "ok"}`. -/
def set_audiotype (reg : Registry) (sessionid : Nat) (audiotype : Int) :
    Response × List Effect :=
  if rendererAttached reg sessionid then
    (⟨0, "ok"⟩, [Effect.setCurrState sessionid audiotype])
  else
    (⟨0, "ok"⟩, [])

/-- `humanaudio` (`app_fixed.py` lines 270-305): absent/unattached session
→ `{"code": -1, "msg": "session not found"}`; otherwise, only when the
form carries a file (`if fileobj:`) is it stored under
`/tmp/audio/audio_{sessionid}_{filename}` and handed to `put_audio_file`;
with no file the branch is skipped and the handler still answers
`{"code": 0, "msg": "ok"}`.  The handler never writes to `nerfreals`: the
returned registry is the input one in every branch. -/
def humanaudio (reg : Registry) (sessionid : Nat) (file : Option String) :
    Response × List Effect × Registry :=
  if ¬ rendererAttached reg sessionid then
    (⟨-1, "session not found"⟩, [], reg)
  else
    match file with
    | some filename =>
        (⟨0, "ok"⟩,
         [Effect.putAudioFile sessionid
            ("/tmp/audio/audio_" ++ toString sessionid ++ "_" ++ filename)],
         reg)
    | none => (⟨0, "ok"⟩, [], reg)

/-- The `health` endpoint body (`app_fixed.py` lines 330-339):
`{"status": "healthy", "sessions": len(nerfreals), "model": opt.model}`. -/
structure HealthResponse where
  status : String
  sessions : Nat
  model : String
deriving DecidableEq, Repr

def health (reg : Registry) (modelStr : String) : HealthResponse :=
  ⟨"healthy", reg.count, modelStr⟩

/-- A codec capability entry as used by the preference loop: its
`mimeType` plus a payload tag distinguishing otherwise-equal entries
(clock rate / format parameters in aiortc). -/
structure Codec where
  mimeType : String
  payload : Nat
deriving DecidableEq, Repr

/-- The codec-preference loops (`app_fixed.py` lines 160-169): one full
scan of `capabilities.codecs` per family, appending matches to
`preferences`, families in the order H264, VP8, rtx. -/
def scanFamily (codecs : List Codec) (fam : String) (acc : List Codec) :
    List Codec :=
  codecs.foldl (fun acc c => if c.mimeType = fam then acc ++ [c] else acc) acc

def codecPreferences (codecs : List Codec) : List Codec :=
  scanFamily codecs "video/rtx"
    (scanFamily codecs "video/VP8"
      (scanFamily codecs "video/H264" []))

/-- Lines 171-177: `if preferences:` — the computed list is applied to the
video transceiver only when non-empty; `none` means
`setCodecPreferences` is not called and transport defaults remain. -/
def applyCodecPreferences (codecs : List Codec) : Option (List Codec) :=
  let p := codecPreferences codecs
  if p.isEmpty then none else some p

/-- A sequence of admission phases (one per incoming offer), each applied
to the registry the previous one left. -/
def admitSeq (maxSession : Nat) (draws : List Nat) (reg : Registry) : Registry :=
  draws.foldl (fun r d => (offer_admission maxSession d r).2) reg

/-- External renderer constructors that always succeed. -/
def allocOk : ModelKind → Nat → Except String Renderer :=
  fun k id => Except.ok ⟨id, k⟩

/-- External renderer constructors whose resource allocation fails
(the Python constructor raises). -/
def allocFails : ModelKind → Nat → Except String Renderer :=
  fun _ _ => Except.error "CUDA out of memory"

/-! ## Helper lemmas -/

theorem offer_admission_count_le (maxSession draw : Nat) (reg : Registry)
    (hinv : reg.count ≤ maxSession) :
    ((offer_admission maxSession draw reg).2).count ≤ maxSession := by
  unfold offer_admission
  by_cases hc : reg.count ≥ maxSession
  · simpa [hc] using hinv
  · have h := Registry.count_insert reg draw none
    by_cases hm : reg.mem draw <;> simp [hc, hm] at h ⊢ <;> omega

theorem admitSeq_count_le (maxSession : Nat) (draws : List Nat) (reg : Registry)
    (hinv : reg.count ≤ maxSession) :
    (admitSeq maxSession draws reg).count ≤ maxSession := by
  induction draws generalizing reg with
  | nil => simpa [admitSeq] using hinv
  | cons d tl ih =>
      have hstep := offer_admission_count_le maxSession d reg hinv
      simpa [admitSeq] using ih _ hstep

theorem scanFamily_eq (codecs : List Codec) (fam : String) (acc : List Codec) :
    scanFamily codecs fam acc = acc ++ codecs.filter (fun c => c.mimeType = fam) := by
  induction codecs generalizing acc with
  | nil => simp [scanFamily]
  | cons c tl ih =>
      rw [show scanFamily (c :: tl) fam acc
            = scanFamily tl fam (if c.mimeType = fam then acc ++ [c] else acc) from rfl]
      by_cases h : c.mimeType = fam
      · rw [if_pos h, ih, List.filter_cons]
        simp [h]
      · rw [if_neg h, ih, List.filter_cons]
        simp [h]

/-! ## Claim theorems -/

/-- C2: whenever the active session count equals `opt.max_session`, the
offer is rejected with exactly `{"code": -1, "msg": "reach max session"}`
and the registry is returned unmutated; one admission step (capacity
check plus placeholder insertion, a single atomic function here because
lines 86-94 contain no `await`) keeps the count at most the maximum, and
so does any sequence of admission steps. -/
theorem admission_cap (maxSession draw : Nat) (reg : Registry)
    (hinv : reg.count ≤ maxSession) :
    (reg.count = maxSession →
        offer_admission maxSession draw reg = (some ⟨-1, "reach max session"⟩, reg)) ∧
    ((offer_admission maxSession draw reg).2).count ≤ maxSession ∧
    ∀ draws : List Nat, (admitSeq maxSession draws reg).count ≤ maxSession := by
  refine ⟨?_, offer_admission_count_le maxSession draw reg hinv,
    fun draws => admitSeq_count_le maxSession draws reg hinv⟩
  intro h
  simp [offer_admission, h]

theorem admission_cap_witness :
    (offer_admission 1 7 [(5, none)] = (some ⟨-1, "reach max session"⟩, [(5, none)])) ∧
    ((offer_admission 1 7 [(5, (none : Option Renderer))]).2).count ≤ 1 :=
  ⟨(admission_cap 1 7 [(5, none)] (by decide)).1 (by decide),
   (admission_cap 1 7 [(5, none)] (by decide)).2.1⟩

/-- C4: the registry part of the terminal connection-state handler is
idempotent — running `cleanup` a second time for the same session id
leaves the registry exactly as one invocation left it (the deletion is
gated on `sessionid in nerfreals`, so the second call is a silent no-op;
being a total Lean function, it also returns normally, mirroring that the
Python branch raises nothing). -/
theorem cleanup_idempotent (reg : Registry) (sessionid : Nat) :
    cleanup (cleanup reg sessionid) sessionid = cleanup reg sessionid := by
  unfold cleanup
  by_cases hm : reg.mem sessionid <;> simp [hm]

/-- C6: the id generator feeds `offer` with no uniqueness check: when the
drawn id collides with an already-registered active session, the
registration `nerfreals[sessionid] = None` silently overwrites the
existing entry — admission still succeeds (no error, no retry), the old
renderer's entry is replaced by the placeholder, and the registry size is
unchanged. -/
theorem collision_silently_overwrites (maxSession : Nat) (reg : Registry)
    (id : Nat) (r : Renderer)
    (hactive : reg.lookup id = some (some r)) (hcap : reg.count < maxSession) :
    offer_admission maxSession id reg = (none, reg.insert id none) ∧
    (reg.insert id none).lookup id = some none ∧
    (reg.insert id none).count = reg.count := by
  refine ⟨?_, Registry.lookup_insert_self reg id none, ?_⟩
  · unfold offer_admission
    rw [if_neg (by omega)]
  · exact Registry.count_insert_of_mem reg id none (by simp [Registry.mem, hactive])

theorem collision_silently_overwrites_witness :
    (offer_admission 2 7 [(7, some ⟨7, ModelKind.wav2lip⟩)]
        = (none, Registry.insert [(7, some ⟨7, ModelKind.wav2lip⟩)] 7 none)) ∧
    ((Registry.insert [(7, some ⟨7, ModelKind.wav2lip⟩)] 7 none).lookup 7
        = some none) ∧
    ((Registry.insert [(7, some ⟨7, ModelKind.wav2lip⟩)] 7 none).count
        = Registry.count [(7, some ⟨7, ModelKind.wav2lip⟩)]) :=
  collision_silently_overwrites 2 [(7, some ⟨7, ModelKind.wav2lip⟩)] 7
    ⟨7, ModelKind.wav2lip⟩ (by decide) (by decide)

/-- C7: the preference list is the concatenation, in priority order
H264, VP8, rtx, of one full filter pass over the capability list per
family (so duplicates survive); each family block is a sublist of the
input, hence keeps the input's relative order; on the spec's example the
result is exactly `[H264, H264, VP8, rtx]`; and the list is applied to
the video transceiver only when non-empty. -/
theorem codec_preference_computation (codecs : List Codec) :
    codecPreferences codecs =
      codecs.filter (fun c => c.mimeType = "video/H264")
        ++ codecs.filter (fun c => c.mimeType = "video/VP8")
        ++ codecs.filter (fun c => c.mimeType = "video/rtx") ∧
    (codecs.filter (fun c => c.mimeType = "video/H264")).Sublist codecs ∧
    (codecs.filter (fun c => c.mimeType = "video/VP8")).Sublist codecs ∧
    (codecs.filter (fun c => c.mimeType = "video/rtx")).Sublist codecs ∧
    codecPreferences
        [⟨"video/VP8", 0⟩, ⟨"video/H264", 1⟩, ⟨"video/rtx", 2⟩, ⟨"video/H264", 3⟩]
      = [⟨"video/H264", 1⟩, ⟨"video/H264", 3⟩, ⟨"video/VP8", 0⟩, ⟨"video/rtx", 2⟩] ∧
    (codecPreferences codecs ≠ [] ↔
        applyCodecPreferences codecs = some (codecPreferences codecs)) := by
  refine ⟨?_, List.filter_sublist codecs, List.filter_sublist codecs,
    List.filter_sublist codecs, by decide, ?_⟩
  · unfold codecPreferences
    rw [scanFamily_eq, scanFamily_eq, scanFamily_eq]
    simp
  · cases hp : codecPreferences codecs with
    | nil => simp [applyCodecPreferences, hp]
    | cons a l => simp [applyCodecPreferences, hp]

/-- C8: `randN(N)` draws `randint(10^(N-1), 10^N - 1)`, so — under the
documented contract of Python's `random.randint` (inclusive on both
ends) — the result is an exactly-N-digit number for every `N ≥ 1`, and
the `randN(6)` drawn for each new session at line 93 lies in
`[100000, 999999]`. -/
theorem randN_in_digit_range (randint : Nat → Nat → Nat)
    (hr : ∀ a b, a ≤ b → a ≤ randint a b ∧ randint a b ≤ b)
    (N : Nat) (hN : 1 ≤ N) :
    (10 ^ (N - 1) ≤ randN randint N ∧ randN randint N ≤ 10 ^ N - 1) ∧
    (100000 ≤ randN randint 6 ∧ randN randint 6 ≤ 999999) := by
  constructor
  · have h1 : (1 : Nat) ≤ 10 ^ (N - 1) := Nat.one_le_pow _ _ (by norm_num)
    have h2 : 10 ^ N = 10 ^ (N - 1) * 10 := by
      conv_lhs => rw [← Nat.sub_add_cancel hN]
      rw [pow_succ]
    exact hr _ _ (by omega)
  · have hb := hr (10 ^ 5) (10 ^ 6 - 1) (by norm_num)
    unfold randN
    norm_num at hb ⊢
    exact hb

theorem randN_in_digit_range_witness :
    (10 ^ (1 - 1) ≤ randN (fun a _ => a) 1 ∧ randN (fun a _ => a) 1 ≤ 10 ^ 1 - 1) ∧
    (100000 ≤ randN (fun a _ => a) 6 ∧ randN (fun a _ => a) 6 ≤ 999999) :=
  randN_in_digit_range (fun a _ => a) (fun a b h => ⟨Nat.le_refl a, h⟩) 1 (by decide)

/-- C1 (the code contradicts the claim): session `123456` is admitted and
its placeholder registered; the transport reports `"failed"` while
construction is in flight, so the state-change handler removes the
registry entry; when construction then completes, line 100 runs
`nerfreals[sessionid] = nerfreal` with no registry-membership lookup, so
the built renderer IS attached and the registry afterwards DOES contain an
entry for the removed session — a zombie entry no connection references. -/
theorem construction_race_reattaches_removed_session :
    offer_admission 1 123456 [] = (none, [(123456, none)]) ∧
    cleanup [(123456, none)] 123456 = [] ∧
    offer_complete [] 123456 (Except.ok ⟨123456, ModelKind.wav2lip⟩) =
      (OfferOutcome.success 123456 ⟨123456, ModelKind.wav2lip⟩,
       [(123456, some ⟨123456, ModelKind.wav2lip⟩)]) ∧
    Registry.lookup [(123456, some ⟨123456, ModelKind.wav2lip⟩)] 123456 ≠ none := by
  decide

/-- C3 (the code contradicts the claim's rollback half): when
`build_nerfreal` fails — unknown model selector `"svd"`, or a resource
allocation failure inside a recognized constructor — the handler-wide
`except` does return the structured `{"code": -1, "msg": ...}` error, but
no statement in it deletes `nerfreals[sessionid]`, so the placeholder
inserted at line 94 survives the error response, and (with the default
`max_session = 1`) the leaked entry alone makes every later offer be
rejected with `"reach max session"`. -/
theorem build_failure_leaves_placeholder :
    offer_run 1 123456 "svd" allocOk [] =
      (OfferOutcome.response ⟨-1, "Unknown model: svd"⟩, [(123456, none)]) ∧
    offer_run 1 123456 "wav2lip" allocFails [] =
      (OfferOutcome.response ⟨-1, "CUDA out of memory"⟩, [(123456, none)]) ∧
    Registry.lookup [(123456, none)] 123456 = some none ∧
    offer_admission 1 999999 [(123456, none)] =
      (some ⟨-1, "reach max session"⟩, [(123456, none)]) := by
  decide

/-- C5 counterexample: dispatching an `interrupt` or a set-playback-state
command for a session id that is absent from the registry does NOT return
the `{"code": -1, "msg": "session not found"}` error the claim asserts
for every command kind — both handlers skip the renderer call and answer
`{"code": 0, "msg": "ok"}`. -/
theorem interrupt_absent_session_not_error :
    (interrupt_talk [] 42).1 = ⟨0, "ok"⟩ ∧
    (interrupt_talk [] 42).1 ≠ ⟨-1, "session not found"⟩ ∧
    (set_audiotype [] 42 0).1 = ⟨0, "ok"⟩ ∧
    (set_audiotype [] 42 0).1 ≠ ⟨-1, "session not found"⟩ := by
  decide

/-- C5 amended: for a session id absent from the registry or registered
with a `None` renderer, the text handler (`human`, all of interrupt-flag,
echo and chat variants) and the audio-upload handler return
`{"code": -1, "msg": "session not found"}`, while `interrupt_talk` and
`set_audiotype` silently no-op with `{"code": 0, "msg": "ok"}`; none of
the four performs any renderer call, and (being total functions of the
embedded handlers, whose Python bodies also wrap everything in
`try/except`) none raises. -/
theorem dispatch_absent_session (reg : Registry) (sessionid : Nat)
    (h : rendererAttached reg sessionid = false)
    (reqType : Option String) (text : String) (intr : Bool)
    (file : Option String) (audiotype : Int) :
    human reg sessionid reqType text intr = (⟨-1, "session not found"⟩, []) ∧
    humanaudio reg sessionid file = (⟨-1, "session not found"⟩, [], reg) ∧
    interrupt_talk reg sessionid = (⟨0, "ok"⟩, []) ∧
    set_audiotype reg sessionid audiotype = (⟨0, "ok"⟩, []) := by
  simp [human, humanaudio, interrupt_talk, set_audiotype, h]

theorem dispatch_absent_session_witness :
    human [(3, none)] 3 (some "echo") "hi" true = (⟨-1, "session not found"⟩, []) ∧
    humanaudio [(3, none)] 3 (some "a.wav") = (⟨-1, "session not found"⟩, [], [(3, none)]) ∧
    interrupt_talk [(3, none)] 3 = (⟨0, "ok"⟩, []) ∧
    set_audiotype [(3, none)] 3 1 = (⟨0, "ok"⟩, []) :=
  dispatch_absent_session [(3, none)] 3 (by decide) (some "echo") "hi" true
    (some "a.wav") 1

/-- C9: the admission phase inserts the placeholder `draw ↦ None` before
construction starts (`offer_run` invokes construction only on the
registry `offer_admission` already extended); the `health` endpoint reports
`len(nerfreals)`, which counts that pending null-renderer entry; and the
admission check of the next offer counts it too — with the cap set to
exactly the new size, a further offer is rejected while the first one's
construction is still in flight. -/
theorem pending_placeholder_occupies_slot (maxSession draw draw2 : Nat)
    (reg : Registry) (modelStr : String)
    (hfresh : reg.mem draw = false) (hcap : reg.count < maxSession) :
    ∃ reg',
      offer_admission maxSession draw reg = (none, reg') ∧
      reg'.lookup draw = some none ∧
      (health reg' modelStr).sessions = reg.count + 1 ∧
      offer_admission (reg.count + 1) draw2 reg' =
        (some ⟨-1, "reach max session"⟩, reg') := by
  refine ⟨reg.insert draw none, ?_, Registry.lookup_insert_self reg draw none, ?_, ?_⟩
  · unfold offer_admission
    rw [if_neg (by omega)]
  · simp [health, Registry.count_insert_of_not_mem reg draw none hfresh]
  · unfold offer_admission
    rw [if_pos (by rw [Registry.count_insert_of_not_mem reg draw none hfresh])]

theorem pending_placeholder_occupies_slot_witness :
    ∃ reg',
      offer_admission 1 111111 [] = (none, reg') ∧
      Registry.lookup reg' 111111 = some none ∧
      (health reg' "musetalk").sessions = Registry.count [] + 1 ∧
      offer_admission (Registry.count [] + 1) 222222 reg' =
        (some ⟨-1, "reach max session"⟩, reg') :=
  pending_placeholder_occupies_slot 1 111111 222222 [] "musetalk"
    (by decide) (by decide)

/-- C10: on a session with an attached renderer, an audio-upload request
carrying no file is not an error: the `if fileobj:` branch is skipped, so
nothing is stored, `put_audio_file` is never invoked (empty effect list),
the response is `{"code": 0, "msg": "ok"}`, and the registry is returned
unchanged. -/
theorem humanaudio_no_file_ok (reg : Registry) (sessionid : Nat)
    (h : rendererAttached reg sessionid = true) :
    humanaudio reg sessionid none = (⟨0, "ok"⟩, [], reg) := by
  simp [humanaudio, h]

theorem humanaudio_no_file_ok_witness :
    humanaudio [(1, some ⟨1, ModelKind.musetalk⟩)] 1 none =
      (⟨0, "ok"⟩, [], [(1, some ⟨1, ModelKind.musetalk⟩)]) :=
  humanaudio_no_file_ok [(1, some ⟨1, ModelKind.musetalk⟩)] 1 (by decide)

end LiveTalking
